import Mathlib

set_option linter.unusedVariables false

/-! # Table-configurator validation engine: shallow embedding

Embedding of the validation core under `src/validation`: the data model
(`types.ts`), the seven rule checkers (`compositeRules`, `materialRules`,
`spanRules`, `stabilityRules`, `legRules`, `heightRules`, `edgeRules`),
the orchestrator (`engine.ts`) and the repair suggester (`suggester.ts`).

Numeric fields are modelled as exact rationals.  Findings keep the stable
rule identifier and the canonical field name; the two human-readable
message strings of the source are abstracted away (no verified property
concerns them).  `Math.sqrt` appears in the source only inside comparisons
and inside one floor-of-scaled-value computation; both are embedded by
exact computable equivalents on rationals, with a bridging lemma tying the
comparison form to `Real.sqrt`. -/

inductive TopMaterial where
  | sintered_stone
  | quartz
  | marble
  | granite
deriving DecidableEq

inductive TopShapeType where
  | rectangle
  | square
  | oval
  | round
  | custom
deriving DecidableEq

inductive TopEdgeFinish where
  | straight
  | beveled
  | rounded
  | mitered
deriving DecidableEq

inductive TopConstruction where
  | solid
  | composite
deriving DecidableEq

inductive LegMaterial where
  | steel
  | stainless_steel
  | aluminum
  | solid_wood
  | laminated_wood
deriving DecidableEq

inductive LegProfileType where
  | round
  | square
  | rectangular
  | trestle
  | pedestal
  | radial_halfcylinder
deriving DecidableEq

/-- `TableConfig` from `types.ts`: the full specification under validation. -/
structure TableConfig where
  topMaterial : TopMaterial
  topThicknessMm : ℚ
  topShapeType : TopShapeType
  topLengthMm : ℚ
  topWidthMm : ℚ
  topEdgeFinish : TopEdgeFinish
  topConstruction : Option TopConstruction
  topFaceThicknessMm : Option ℚ
  legCount : ℕ
  legMaterial : LegMaterial
  legProfileType : LegProfileType
  legProfileSizeMm : ℚ
  legProfileWidthMm : Option ℚ
  legHeightMm : ℚ
  hasFootBase : Bool
  legRadialCount : Option ℕ
  legRadialSpreadMm : Option ℚ
  totalHeightMm : ℚ
deriving DecidableEq

/-- `ValidationMessage` from `types.ts`, restricted to the machine-readable
part: the stable rule identifier and the canonical field it reports on. -/
structure ValidationMessage where
  ruleId : String
  field : String
deriving DecidableEq

/-- `ValidationResult` from `types.ts`. -/
structure ValidationResult where
  isValid : Bool
  warnings : List ValidationMessage
  violations : List ValidationMessage
  suggestedConfig : Option TableConfig
deriving DecidableEq

/-! ## Material rules (`materialRules.ts`) -/

/-- `MATERIAL_MIN_THICKNESS` table. -/
def materialMinThickness : TopMaterial → ℚ
  | .sintered_stone => 12
  | .quartz => 20
  | .marble => 20
  | .granite => 20

structure SpanUpgrade where
  materials : List TopMaterial
  spanThresholdMm : ℚ
  minThicknessMm : ℚ
deriving DecidableEq

/-- `MATERIAL_SPAN_UPGRADE` table. -/
def materialSpanUpgrade : List SpanUpgrade :=
  [⟨[.sintered_stone], 1200, 20⟩,
   ⟨[.marble, .granite], 1400, 30⟩]

/-- `checkMaterialThickness`: skipped for composite construction, otherwise
rule MAT-01 (absolute minimum) and MAT-02 (span-triggered minimum). -/
def checkMaterialThickness (config : TableConfig) : List ValidationMessage :=
  if config.topConstruction = some TopConstruction.composite then []
  else
    (if config.topThicknessMm < materialMinThickness config.topMaterial then
      [⟨"MAT-01", "topThicknessMm"⟩] else [])
    ++ materialSpanUpgrade.flatMap (fun rule =>
        if config.topMaterial ∈ rule.materials ∧ rule.spanThresholdMm < config.topLengthMm ∧
            config.topThicknessMm < rule.minThicknessMm then
          [⟨"MAT-02", "topThicknessMm"⟩] else [])

/-! ## Span rules (`spanRules.ts`) -/

structure SpanTier where
  materials : List TopMaterial
  minThicknessMm : ℚ
  maxSpanMm : ℚ
deriving DecidableEq

/-- `SPAN_LIMITS_4LEG` table. -/
def spanLimits4Leg : List SpanTier :=
  [⟨[.sintered_stone], 12, 900⟩,
   ⟨[.sintered_stone], 20, 1800⟩,
   ⟨[.quartz, .marble, .granite], 20, 1400⟩,
   ⟨[.sintered_stone, .quartz, .marble, .granite], 30, 2400⟩]

structure PedestalTier where
  minThicknessMm : ℚ
  maxDiagonalMm : ℚ
deriving DecidableEq

/-- `PEDESTAL_SPAN_LIMITS` table. -/
def pedestalSpanLimits : List PedestalTier :=
  [⟨20, 1000⟩, ⟨30, 1200⟩]

/-- Decides whether the square root of a nonnegative rational strictly
exceeds a bound: the comparison shape in which `Math.sqrt` is consumed by
the span checker (`effectiveSpan > maxDiag`).  Exact, computable. -/
def sqrtGtQ (x bound : ℚ) : Bool :=
  if 0 ≤ bound then decide (bound ^ 2 < x) else true

/-- The checker's `effectiveSpan > bound` test: the effective span is the
diameter (`topLengthMm`) for round tops and the diagonal
`Math.sqrt(topLengthMm ** 2 + topWidthMm ** 2)` otherwise. -/
def effSpanGtQ (config : TableConfig) (bound : ℚ) : Bool :=
  if config.topShapeType = TopShapeType.round then decide (bound < config.topLengthMm)
  else sqrtGtQ (config.topLengthMm ^ 2 + config.topWidthMm ^ 2) bound

/-- Descending order on span tiers by minimum thickness: the comparator
`(a, b) => b.minThicknessMm - a.minThicknessMm` of the source's stable sort. -/
def tierGE (a b : SpanTier) : Prop := b.minThicknessMm ≤ a.minThicknessMm

instance : DecidableRel tierGE := fun a b =>
  inferInstanceAs (Decidable (b.minThicknessMm ≤ a.minThicknessMm))

/-- Pedestal limit lookup: reversed tiers, first whose minimum thickness is
met; conservative fallback 800 when none matches. -/
def pedestalMaxDiag (thickness : ℚ) : ℚ :=
  ((pedestalSpanLimits.reverse.find? fun l => decide (l.minThicknessMm ≤ thickness)).map
    (fun l => l.maxDiagonalMm)).getD 800

/-- The multi-leg tier selection: filter by material, sort descending by
minimum thickness, take the first tier whose minimum thickness is met. -/
def applicableSpanTier (config : TableConfig) : Option SpanTier :=
  ((spanLimits4Leg.filter fun r => decide (config.topMaterial ∈ r.materials)).insertionSort
      tierGE).find? fun r => decide (r.minThicknessMm ≤ config.topThicknessMm)

/-- Composite sandwich tops get a 1.4 multiplier on the allowed span. -/
def compositeMultiplier (config : TableConfig) : ℚ :=
  if config.topConstruction = some TopConstruction.composite then 1.4 else 1

/-- `checkSpan`: the pedestal branch (SPAN-02, returns early) and the
2/4/6-leg branch (SPAN-01, compares `span = topLengthMm`). -/
def checkSpan (config : TableConfig) : List ValidationMessage :=
  if (config.legCount = 1 ∨ config.legProfileType = LegProfileType.pedestal) ∧
      config.legProfileType ≠ LegProfileType.radial_halfcylinder then
    if effSpanGtQ config (pedestalMaxDiag config.topThicknessMm) then
      [⟨"SPAN-02", "topLengthMm"⟩]
    else []
  else
    if config.legCount = 2 ∨ config.legCount = 4 ∨ config.legCount = 6 then
      match applicableSpanTier config with
      | some rule =>
        if rule.maxSpanMm * compositeMultiplier config < config.topLengthMm then
          [⟨"SPAN-01", "topLengthMm"⟩]
        else []
      | none => []
    else []

/-! ## Stability rules (`stabilityRules.ts`) -/

/-- `MIN_STABILITY_RATIO` in the source. -/
def minStabilityFrac : ℚ := 0.45

/-- `PEDESTAL_BASE_RATIO` in the source. -/
def pedestalBaseFrac : ℚ := 0.4

def isMetalLegMaterial : LegMaterial → Bool
  | .steel | .stainless_steel | .aluminum => true
  | _ => false

def isWoodLegMaterial : LegMaterial → Bool
  | .solid_wood | .laminated_wood => true
  | _ => false

/-- `FOOT_BASE_RULES.{metal,wood}.maxLegHeightWithoutBase`. -/
def footBaseMaxLegHeight : ℚ := 700

/-- `FOOT_BASE_RULES.metal.minProfileForNoBase`. -/
def footBaseMinProfileMetal : ℚ := 60

/-- `FOOT_BASE_RULES.wood.minProfileForNoBase`. -/
def footBaseMinProfileWood : ℚ := 80

/-- Footprint for STAB-01: twice the radial spread for radial-halfcylinder
bases with a defined spread, otherwise the top width. -/
def stabilityFootprint (config : TableConfig) : ℚ :=
  match config.legRadialSpreadMm with
  | some s =>
    if config.legProfileType = LegProfileType.radial_halfcylinder then s * 2
    else config.topWidthMm
  | none => config.topWidthMm

/-- `checkStability`: STAB-01 (footprint over height), STAB-02 (pedestal
base, skipped for radial), STAB-03 (foot base, skipped for radial). -/
def checkStability (config : TableConfig) : List ValidationMessage :=
  (if stabilityFootprint config / config.totalHeightMm < minStabilityFrac then
    [⟨"STAB-01", "topWidthMm"⟩] else [])
  ++ (if config.legProfileType ≠ LegProfileType.radial_halfcylinder ∧
        (config.legCount = 1 ∨ config.legProfileType = LegProfileType.pedestal) ∧
        config.legProfileSizeMm < (⌈pedestalBaseFrac * config.totalHeightMm⌉ : ℚ) then
    [⟨"STAB-02", "legProfileSizeMm"⟩] else [])
  ++ (if config.legProfileType ≠ LegProfileType.radial_halfcylinder ∧
        isMetalLegMaterial config.legMaterial = true ∧
        footBaseMaxLegHeight < config.legHeightMm ∧
        config.legProfileSizeMm < footBaseMinProfileMetal ∧
        config.hasFootBase = false then
    [⟨"STAB-03", "hasFootBase"⟩] else [])
  ++ (if config.legProfileType ≠ LegProfileType.radial_halfcylinder ∧
        isWoodLegMaterial config.legMaterial = true ∧
        footBaseMaxLegHeight < config.legHeightMm ∧
        config.legProfileSizeMm < footBaseMinProfileWood ∧
        config.hasFootBase = false then
    [⟨"STAB-03", "hasFootBase"⟩] else [])

/-! ## Leg rules (`legRules.ts`) -/

structure LegMinProfile where
  materials : List LegMaterial
  profileType : LegProfileType
  minSizeMm : ℚ
deriving DecidableEq

/-- `LEG_MIN_PROFILES` table. -/
def legMinProfiles : List LegMinProfile :=
  [⟨[.steel, .stainless_steel, .aluminum], .round, 30⟩,
   ⟨[.steel, .stainless_steel, .aluminum], .square, 40⟩,
   ⟨[.steel, .stainless_steel, .aluminum], .rectangular, 40⟩]

def woodMinProfileShort : ℚ := 60
def woodMinProfileTall : ℚ := 80
def woodTallThreshold : ℚ := 750
def maxSlendernessMetal : ℚ := 25
def maxSlendernessWood : ℚ := 15

/-- `RADIAL_SPREAD_RATIO` in the source. -/
def radialSpreadFrac : ℚ := 0.4

def radialMinCount : ℕ := 3
def radialMinDiameterMm : ℚ := 60

/-- `PEDESTAL_VALID_SHAPES`. -/
def pedestalValidShapes : List TopShapeType := [.round, .square]

/-- `checkLegRules`: the radial-halfcylinder branch (RADIAL-01/02/03,
returning immediately) and the standard branch (LEG-01 … LEG-05). -/
def checkLegRules (config : TableConfig) : List ValidationMessage :=
  if config.legProfileType = LegProfileType.radial_halfcylinder then
    (match config.legRadialSpreadMm with
     | some spread =>
       if spread < (⌈radialSpreadFrac * config.totalHeightMm⌉ : ℚ) then
         [⟨"RADIAL-01", "legRadialSpreadMm"⟩] else []
     | none => [])
    ++ (match config.legRadialCount with
        | some n => if n < radialMinCount then [⟨"RADIAL-02", "legRadialCount"⟩] else []
        | none => [])
    ++ (if config.legProfileSizeMm < radialMinDiameterMm then
        [⟨"RADIAL-03", "legProfileSizeMm"⟩] else [])
  else
    (if isMetalLegMaterial config.legMaterial = true then
      match legMinProfiles.find? (fun r =>
          decide (config.legMaterial ∈ r.materials ∧ r.profileType = config.legProfileType)) with
      | some rule =>
        if config.legProfileSizeMm < rule.minSizeMm then
          [⟨"LEG-01", "legProfileSizeMm"⟩] else []
      | none => []
     else [])
    ++ (if isWoodLegMaterial config.legMaterial = true ∧
          config.legProfileSizeMm <
            (if woodTallThreshold ≤ config.legHeightMm then woodMinProfileTall
             else woodMinProfileShort) then
        [⟨"LEG-02", "legProfileSizeMm"⟩] else [])
    ++ (if isMetalLegMaterial config.legMaterial = true ∧
          maxSlendernessMetal < config.legHeightMm / config.legProfileSizeMm then
        [⟨"LEG-03", "legProfileSizeMm"⟩] else [])
    ++ (if isWoodLegMaterial config.legMaterial = true ∧
          maxSlendernessWood < config.legHeightMm / config.legProfileSizeMm then
        [⟨"LEG-03", "legProfileSizeMm"⟩] else [])
    ++ (if (config.legCount = 1 ∨ config.legProfileType = LegProfileType.pedestal) ∧
          config.topShapeType ∉ pedestalValidShapes then
        [⟨"LEG-04", "legCount"⟩] else [])
    ++ (if (config.topShapeType = TopShapeType.round ∨ config.topShapeType = TopShapeType.oval) ∧
          4 ≤ config.legCount then
        [⟨"LEG-05", "legCount"⟩] else [])

/-! ## Height rules (`heightRules.ts`) -/

def minTotalHeight : ℚ := 350
def maxTotalHeight : ℚ := 1100
def heightTolerance : ℚ := 2

/-- `checkHeight`: HGT-01 absolute bounds (low and high fire separately)
and HGT-03 consistency within the tolerance. -/
def checkHeight (config : TableConfig) : List ValidationMessage :=
  (if config.totalHeightMm < minTotalHeight then [⟨"HGT-01", "totalHeightMm"⟩] else [])
  ++ (if maxTotalHeight < config.totalHeightMm then [⟨"HGT-01", "totalHeightMm"⟩] else [])
  ++ (if heightTolerance <
        |config.totalHeightMm - (config.legHeightMm + config.topThicknessMm)| then
      [⟨"HGT-03", "totalHeightMm"⟩] else [])

/-! ## Edge rules (`edgeRules.ts`) -/

/-- `EDGE_MIN_THICKNESS` record: mitered 20, beveled 12, others absent. -/
def edgeMinThickness : TopEdgeFinish → Option ℚ
  | .mitered => some 20
  | .beveled => some 12
  | _ => none

/-- For composite tops with a defined face panel the edge is machined into
the face only; otherwise the full thickness is used. -/
def edgeEffectiveThickness (config : TableConfig) : ℚ :=
  match config.topConstruction, config.topFaceThicknessMm with
  | some TopConstruction.composite, some f => f
  | _, _ => config.topThicknessMm

/-- `checkEdge`: EDGE-01 for mitered, EDGE-02 for beveled. -/
def checkEdge (config : TableConfig) : List ValidationMessage :=
  match edgeMinThickness config.topEdgeFinish with
  | some minT =>
    if edgeEffectiveThickness config < minT then
      [⟨if config.topEdgeFinish = TopEdgeFinish.mitered then "EDGE-01" else "EDGE-02",
        "topEdgeFinish"⟩]
    else []
  | none => []

/-! ## Composite rules (`compositeRules.ts`) -/

/-- `COMPOSITE_FACE_MIN` table. -/
def compositeFaceMin : TopMaterial → ℚ
  | .sintered_stone => 6
  | .quartz => 12
  | .marble => 12
  | .granite => 12

def minCoreMm : ℚ := 10

/-- `checkCompositeTop`: COMP-01 face minimum, COMP-02 core minimum,
COMP-03 total-thickness consistency (guarded by `core >= MIN_CORE_MM`). -/
def checkCompositeTop (config : TableConfig) : List ValidationMessage :=
  if config.topConstruction ≠ some TopConstruction.composite then []
  else
    match config.topFaceThicknessMm with
    | none => []
    | some face =>
      (if face < compositeFaceMin config.topMaterial then
        [⟨"COMP-01", "topFaceThicknessMm"⟩] else [])
      ++ (if config.topThicknessMm - 2 * face < minCoreMm then
          [⟨"COMP-02", "topFaceThicknessMm"⟩] else [])
      ++ (if config.topThicknessMm < 2 * face + minCoreMm ∧
            minCoreMm ≤ config.topThicknessMm - 2 * face then
          [⟨"COMP-03", "topThicknessMm"⟩] else [])

/-! ## Engine (`engine.ts`) -/

/-- `WARNING_RULE_IDS`: LEG-05 is the sole warning-class rule. -/
def warningRuleIds : List String := ["LEG-05"]

/-- The concatenated findings of the seven checkers, in the source's
invocation order: composite, material, span, stability, leg, height, edge. -/
def validateMessages (config : TableConfig) : List ValidationMessage :=
  checkCompositeTop config ++ checkMaterialThickness config ++ checkSpan config
    ++ checkStability config ++ checkLegRules config ++ checkHeight config
    ++ checkEdge config

/-! ## Suggester (`suggester.ts`) -/

/-- Floor of the square root of a nonnegative rational, computed exactly:
for `0 ≤ q`, `Nat.sqrt ⌊q⌋` is `⌊Real.sqrt q⌋`. -/
def sqrtFloorQ (q : ℚ) : ℕ := Nat.sqrt ⌊q⌋.toNat

/-- Ceiling of the square root of a nonnegative rational, computed exactly. -/
def sqrtCeilQ (q : ℚ) : ℕ :=
  if ((sqrtFloorQ q : ℚ)) ^ 2 = q then sqrtFloorQ q else sqrtFloorQ q + 1

/-- Exact value of `Math.floor(v * m / Math.sqrt dSq)` for `dSq > 0`:
for nonnegative `v * m` this is `⌊Real.sqrt ((v * m) ^ 2 / dSq)⌋`, and for
negative `v * m` it is `-⌈Real.sqrt ((v * m) ^ 2 / dSq)⌉`. -/
def floorScaleDiag (v m dSq : ℚ) : ℤ :=
  if 0 ≤ v * m then (sqrtFloorQ ((v * m) ^ 2 / dSq) : ℤ)
  else -(sqrtCeilQ ((v * m) ^ 2 / dSq) : ℤ)

/-- The suggester's inline `matMin` record (duplicated from the material
rule table in the source). -/
def suggesterMatMin : TopMaterial → ℚ
  | .sintered_stone => 12
  | .quartz => 20
  | .marble => 20
  | .granite => 20

/-- The suggester's inline `metalMin` record, with the `?? 40` fallback. -/
def suggesterMetalMin : LegProfileType → ℚ
  | .round => 30
  | .square => 40
  | .rectangular => 40
  | _ => 40

/-- The suggester's inline `faceMin` record. -/
def suggesterFaceMin : TopMaterial → ℚ
  | .sintered_stone => 6
  | .quartz => 12
  | .marble => 12
  | .granite => 12

/-- Helper `spanBasedMinThickness` of `suggester.ts`. -/
def spanBasedMinThickness (config : TableConfig) : ℚ :=
  if config.topMaterial = TopMaterial.sintered_stone ∧ 1200 < config.topLengthMm then 20
  else if (config.topMaterial = TopMaterial.marble ∨ config.topMaterial = TopMaterial.granite) ∧
      1400 < config.topLengthMm then 30
  else config.topThicknessMm

/-- Helper `minThicknessForSpan` of `suggester.ts`. -/
def minThicknessForSpan (material : TopMaterial) (spanMm : ℚ) : Option ℚ :=
  match material with
  | .sintered_stone =>
    if spanMm ≤ 900 then some 12
    else if spanMm ≤ 1800 then some 20
    else if spanMm ≤ 2400 then some 30
    else none
  | _ =>
    if spanMm ≤ 1400 then some 20
    else if spanMm ≤ 2400 then some 30
    else none

/-- Helper `maxSpanForThickness` of `suggester.ts`. -/
def maxSpanForThickness (material : TopMaterial) (thickness : ℚ) : Option ℚ :=
  match material with
  | .sintered_stone =>
    if 30 ≤ thickness then some 2400
    else if 20 ≤ thickness then some 1800
    else if 12 ≤ thickness then some 900
    else none
  | _ =>
    if 30 ≤ thickness then some 2400
    else if 20 ≤ thickness then some 1400
    else none

/-- `applyFix`: one rule-specific local edit per violation identifier. -/
def applyFix (config : TableConfig) (violation : ValidationMessage) : TableConfig :=
  match violation.ruleId with
  | "MAT-01" =>
    let m := suggesterMatMin config.topMaterial
    if config.topThicknessMm < m then { config with topThicknessMm := m } else config
  | "MAT-02" =>
    let m := spanBasedMinThickness config
    if config.topThicknessMm < m then { config with topThicknessMm := m } else config
  | "SPAN-01" =>
    match minThicknessForSpan config.topMaterial config.topLengthMm with
    | some required =>
      { config with topThicknessMm := max config.topThicknessMm required }
    | none =>
      match maxSpanForThickness config.topMaterial config.topThicknessMm with
      | some maxLen => { config with topLengthMm := maxLen }
      | none => config
  | "SPAN-02" =>
    if config.topThicknessMm < 30 then { config with topThicknessMm := 30 }
    else
      let maxDiag : ℚ := 1200
      let dSq := config.topLengthMm ^ 2 + config.topWidthMm ^ 2
      if sqrtGtQ dSq maxDiag then
        { config with
            topLengthMm := (floorScaleDiag config.topLengthMm maxDiag dSq : ℚ),
            topWidthMm := (floorScaleDiag config.topWidthMm maxDiag dSq : ℚ) }
      else config
  | "STAB-01" =>
    let minWidth : ℚ := (⌈(0.45 : ℚ) * config.totalHeightMm⌉ : ℚ)
    if config.topWidthMm < minWidth then { config with topWidthMm := minWidth } else config
  | "STAB-02" =>
    let minBase : ℚ := (⌈(0.4 : ℚ) * config.totalHeightMm⌉ : ℚ)
    if config.legProfileSizeMm < minBase then
      { config with legProfileSizeMm := minBase } else config
  | "STAB-03" => { config with hasFootBase := true }
  | "LEG-01" =>
    let m := suggesterMetalMin config.legProfileType
    if config.legProfileSizeMm < m then { config with legProfileSizeMm := m } else config
  | "LEG-02" =>
    let m : ℚ := if (750 : ℚ) ≤ config.legHeightMm then 80 else 60
    if config.legProfileSizeMm < m then { config with legProfileSizeMm := m } else config
  | "LEG-03" =>
    let maxSlenderness : ℚ :=
      if isWoodLegMaterial config.legMaterial = true then 15 else 25
    let minProfile : ℚ := (⌈config.legHeightMm / maxSlenderness⌉ : ℚ)
    if config.legProfileSizeMm < minProfile then
      { config with legProfileSizeMm := minProfile } else config
  | "LEG-04" =>
    let config := { config with legCount := 4 }
    if config.legProfileType = LegProfileType.pedestal then
      { config with legProfileType := LegProfileType.square }
    else config
  | "HGT-01" =>
    if config.totalHeightMm < 550 then
      { config with totalHeightMm := 550, legHeightMm := 550 - config.topThicknessMm }
    else if 1100 < config.totalHeightMm then
      { config with totalHeightMm := 1100, legHeightMm := 1100 - config.topThicknessMm }
    else config
  | "HGT-03" =>
    { config with totalHeightMm := config.legHeightMm + config.topThicknessMm }
  | "EDGE-01" =>
    if config.topThicknessMm < 20 then { config with topThicknessMm := 20 } else config
  | "EDGE-02" =>
    if config.topThicknessMm < 12 then
      { config with topEdgeFinish := TopEdgeFinish.straight }
    else { config with topThicknessMm := 12 }
  | "COMP-01" =>
    let m := suggesterFaceMin config.topMaterial
    if config.topFaceThicknessMm.getD 0 < m then
      { config with topFaceThicknessMm := some m } else config
  | "COMP-02" =>
    let face := config.topFaceThicknessMm.getD 6
    let minTotal := 2 * face + 10
    if config.topThicknessMm < minTotal then
      { config with topThicknessMm := minTotal } else config
  | "COMP-03" =>
    let face := config.topFaceThicknessMm.getD 6
    let minTotal := 2 * face + 10
    if config.topThicknessMm < minTotal then
      { config with topThicknessMm := minTotal } else config
  | "RADIAL-01" =>
    let minSpread : ℚ := (⌈(0.4 : ℚ) * config.totalHeightMm⌉ : ℚ)
    if config.legRadialSpreadMm.getD 0 < minSpread then
      { config with legRadialSpreadMm := some minSpread } else config
  | "RADIAL-02" => { config with legRadialCount := some 3 }
  | "RADIAL-03" =>
    if config.legProfileSizeMm < 60 then
      { config with legProfileSizeMm := 60 } else config
  | _ => config

/-- `generateSuggestion`: apply the per-rule fixes in violation-list order,
then unconditionally recompute the total height as leg height plus top
thickness. -/
def generateSuggestion (original : TableConfig)
    (violations : List ValidationMessage) : TableConfig :=
  let suggested := violations.foldl applyFix original
  { suggested with totalHeightMm := suggested.legHeightMm + suggested.topThicknessMm }

/-- `validate` from `engine.ts`: run all checkers, split findings into
violations and warnings by the warning-identifier set, derive validity,
and attach a suggested configuration exactly when invalid. -/
def validate (config : TableConfig) : ValidationResult :=
  let allMessages := validateMessages config
  let violations := allMessages.filter fun m => !(warningRuleIds.contains m.ruleId)
  let warnings := allMessages.filter fun m => warningRuleIds.contains m.ruleId
  let isValid : Bool := decide (violations.length = 0)
  { isValid := isValid
    warnings := warnings
    violations := violations
    suggestedConfig :=
      if isValid = true then none else some (generateSuggestion config violations) }

/-- A valid standard dining table (1800 by 900, 20 mm sintered stone, four
steel legs, 720 mm total height): scenario (1) of the specification. -/
def diningCfg : TableConfig :=
  { topMaterial := .sintered_stone, topThicknessMm := 20, topShapeType := .rectangle,
    topLengthMm := 1800, topWidthMm := 900, topEdgeFinish := .straight,
    topConstruction := none, topFaceThicknessMm := none, legCount := 4,
    legMaterial := .steel, legProfileType := .square, legProfileSizeMm := 60,
    legProfileWidthMm := none, legHeightMm := 700, hasFootBase := false,
    legRadialCount := none, legRadialSpreadMm := none, totalHeightMm := 720 }

/-- A 12 mm sintered top stretched to 1600 mm on tall legs: violates
MAT-02 and SPAN-01, and its repair raises the thickness, pushing the
recomputed total height above the allowed maximum. -/
def spanCfg : TableConfig :=
  { diningCfg with
      topThicknessMm := 12
      topLengthMm := 1600
      topWidthMm := 800
      legHeightMm := 1085
      totalHeightMm := 1097 }

/-! ## Claim theorems -/

/-- Claim C1: for every complete specification, `validate` returns
`isValid = true` if and only if its violations list is empty; warnings
play no part in the validity flag. -/
theorem c1_valid_iff_no_violations (config : TableConfig) :
    (validate config).isValid = true ↔ (validate config).violations = [] := by
  simp [validate, List.length_eq_zero]

/-- Claim C2: for every complete specification, the result of `validate`
carries a suggested configuration exactly when it is invalid; the
suggestion, when present, is a whole `TableConfig` (every field populated
by construction of the type), never a partial patch. -/
theorem c2_suggestion_iff_invalid (config : TableConfig) :
    ((validate config).suggestedConfig).isSome = true ↔
      (validate config).isValid = false := by
  simp only [validate]
  by_cases h :
      ((validateMessages config).filter fun m => !(warningRuleIds.contains m.ruleId)).length = 0 <;>
    simp [h]

/-- Claim C3: whatever the original specification and the violation list,
the repaired specification returned by `generateSuggestion` satisfies
`totalHeightMm = legHeightMm + topThicknessMm` exactly, because the total
height is unconditionally recomputed as the last step. -/
theorem c3_suggestion_height_invariant (original : TableConfig)
    (violations : List ValidationMessage) :
    (generateSuggestion original violations).totalHeightMm =
      (generateSuggestion original violations).legHeightMm +
        (generateSuggestion original violations).topThicknessMm := rfl

/-! ## Rule-identifier characterizations of the checkers -/

theorem ruleIds_compositeTop (config : TableConfig) :
    ∀ m ∈ checkCompositeTop config, m.ruleId ∈ ["COMP-01", "COMP-02", "COMP-03"] := by
  intro m hm
  unfold checkCompositeTop at hm
  split at hm
  · simp at hm
  · split at hm
    · simp at hm
    · simp only [List.mem_append] at hm
      rcases hm with (hm | hm) | hm <;> (split at hm <;> simp_all)

theorem ruleIds_materialThickness (config : TableConfig) :
    ∀ m ∈ checkMaterialThickness config, m.ruleId ∈ ["MAT-01", "MAT-02"] := by
  intro m hm
  unfold checkMaterialThickness at hm
  split at hm
  · simp at hm
  · simp only [List.mem_append, List.mem_flatMap] at hm
    rcases hm with hm | ⟨rule, hrule, hm⟩ <;> (split at hm <;> simp_all)

theorem ruleIds_span (config : TableConfig) :
    ∀ m ∈ checkSpan config, m.ruleId ∈ ["SPAN-01", "SPAN-02"] := by
  intro m hm
  unfold checkSpan at hm
  split at hm
  · split at hm <;> simp_all
  · split at hm
    · split at hm
      · split at hm <;> simp_all
      · simp at hm
    · simp at hm

theorem ruleIds_stability (config : TableConfig) :
    ∀ m ∈ checkStability config, m.ruleId ∈ ["STAB-01", "STAB-02", "STAB-03"] := by
  intro m hm
  unfold checkStability at hm
  simp only [List.mem_append] at hm
  rcases hm with ((hm | hm) | hm) | hm <;> (split at hm <;> simp_all)

theorem ruleIds_legRules (config : TableConfig) :
    ∀ m ∈ checkLegRules config,
      m.ruleId ∈ ["RADIAL-01", "RADIAL-02", "RADIAL-03",
        "LEG-01", "LEG-02", "LEG-03", "LEG-04", "LEG-05"] := by
  intro m hm
  unfold checkLegRules at hm
  split at hm
  · simp only [List.mem_append] at hm
    rcases hm with (hm | hm) | hm
    · split at hm
      · split at hm <;> simp_all
      · simp at hm
    · split at hm
      · split at hm <;> simp_all
      · simp at hm
    · split at hm <;> simp_all
  · simp only [List.mem_append] at hm
    rcases hm with ((((hm | hm) | hm) | hm) | hm) | hm
    · split at hm
      · split at hm
        · split at hm <;> simp_all
        · simp at hm
      · simp at hm
    all_goals (split at hm <;> simp_all)

theorem ruleIds_height (config : TableConfig) :
    ∀ m ∈ checkHeight config, m.ruleId ∈ ["HGT-01", "HGT-03"] := by
  intro m hm
  unfold checkHeight at hm
  simp only [List.mem_append] at hm
  rcases hm with (hm | hm) | hm <;> (split at hm <;> simp_all)

theorem ruleIds_edge (config : TableConfig) :
    ∀ m ∈ checkEdge config, m.ruleId ∈ ["EDGE-01", "EDGE-02"] := by
  intro m hm
  unfold checkEdge at hm
  split at hm
  · split at hm
    · split at hm <;> simp_all
    · simp at hm
  · simp at hm

/-- Claim C5: for every composite specification with a defined face-panel
thickness, the composite checker never emits COMP-03: its trigger (total
below twice the face plus the minimum core while the derived core still
meets the minimum core) is arithmetically unsatisfiable. -/
theorem c5_comp03_unreachable (config : TableConfig)
    (hcomp : config.topConstruction = some TopConstruction.composite)
    (face : ℚ) (hface : config.topFaceThicknessMm = some face) :
    ∀ m ∈ checkCompositeTop config, m.ruleId ≠ "COMP-03" := by
  intro m hm
  unfold checkCompositeTop at hm
  rw [hface] at hm
  split at hm
  · simp at hm
  · simp only [List.mem_append] at hm
    rcases hm with (hm | hm) | hm
    · split at hm <;> simp_all
    · split at hm <;> simp_all
    · split at hm
      · rename_i hcond
        exact absurd hcond (by push_neg; intro h1; linarith)
      · simp at hm

/-! ## Radial-base behaviour of the span, stability and leg checkers -/

theorem ruleIds_span_radial (config : TableConfig)
    (h : config.legProfileType = LegProfileType.radial_halfcylinder) :
    ∀ m ∈ checkSpan config, m.ruleId = "SPAN-01" := by
  intro m hm
  unfold checkSpan at hm
  simp only [h] at hm
  have := ruleIds_span config m (by unfold checkSpan; simp only [h]; exact hm)
  simp only [List.mem_cons, List.not_mem_nil, or_false] at this
  rcases this with hthis | hthis
  · exact hthis
  · exfalso
    split at hm
    · simp at *
    · split at hm
      · split at hm
        · split at hm <;> simp_all
        · simp at hm
      · simp at hm

theorem ruleIds_stability_radial (config : TableConfig)
    (h : config.legProfileType = LegProfileType.radial_halfcylinder) :
    ∀ m ∈ checkStability config, m.ruleId = "STAB-01" := by
  intro m hm
  unfold checkStability at hm
  simp only [h, ne_eq, not_true_eq_false, false_and, if_false, List.append_nil] at hm
  split at hm <;> simp_all

theorem ruleIds_leg_radial (config : TableConfig)
    (h : config.legProfileType = LegProfileType.radial_halfcylinder) :
    ∀ m ∈ checkLegRules config, m.ruleId ∈ ["RADIAL-01", "RADIAL-02", "RADIAL-03"] := by
  intro m hm
  unfold checkLegRules at hm
  simp only [h, if_true, if_pos] at hm
  simp only [List.mem_append] at hm
  rcases hm with (hm | hm) | hm
  · split at hm
    · split at hm <;> simp_all
    · simp at hm
  · split at hm
    · split at hm <;> simp_all
    · simp at hm
  · split at hm <;> simp_all

/-- Claim C4: a radial-halfcylinder specification never receives a finding
with identifier LEG-01 … LEG-04, STAB-02, STAB-03 or SPAN-02: the leg
checker returns after the radial rule set, and the stability and span
checkers skip their pedestal-style checks for radial bases. -/
theorem c4_radial_skips_standard_rules (config : TableConfig)
    (h : config.legProfileType = LegProfileType.radial_halfcylinder) :
    ∀ m ∈ validateMessages config,
      m.ruleId ∉ ["LEG-01", "LEG-02", "LEG-03", "LEG-04", "STAB-02", "STAB-03", "SPAN-02"] := by
  intro m hm
  unfold validateMessages at hm
  simp only [List.mem_append] at hm
  rcases hm with ((((((hm | hm) | hm) | hm) | hm) | hm) | hm)
  · exact (show ∀ x ∈ ["COMP-01", "COMP-02", "COMP-03"],
        x ∉ ["LEG-01", "LEG-02", "LEG-03", "LEG-04", "STAB-02", "STAB-03", "SPAN-02"] by decide)
      m.ruleId (ruleIds_compositeTop config m hm)
  · exact (show ∀ x ∈ ["MAT-01", "MAT-02"],
        x ∉ ["LEG-01", "LEG-02", "LEG-03", "LEG-04", "STAB-02", "STAB-03", "SPAN-02"] by decide)
      m.ruleId (ruleIds_materialThickness config m hm)
  · rw [ruleIds_span_radial config h m hm]; decide
  · rw [ruleIds_stability_radial config h m hm]; decide
  · exact (show ∀ x ∈ ["RADIAL-01", "RADIAL-02", "RADIAL-03"],
        x ∉ ["LEG-01", "LEG-02", "LEG-03", "LEG-04", "STAB-02", "STAB-03", "SPAN-02"] by decide)
      m.ruleId (ruleIds_leg_radial config h m hm)
  · exact (show ∀ x ∈ ["HGT-01", "HGT-03"],
        x ∉ ["LEG-01", "LEG-02", "LEG-03", "LEG-04", "STAB-02", "STAB-03", "SPAN-02"] by decide)
      m.ruleId (ruleIds_height config m hm)
  · exact (show ∀ x ∈ ["EDGE-01", "EDGE-02"],
        x ∉ ["LEG-01", "LEG-02", "LEG-03", "LEG-04", "STAB-02", "STAB-03", "SPAN-02"] by decide)
      m.ruleId (ruleIds_edge config m hm)

/-- A radial-base configuration used to instantiate the radial claims. -/
def radialCfg : TableConfig :=
  { topMaterial := .sintered_stone, topThicknessMm := 20, topShapeType := .round,
    topLengthMm := 1100, topWidthMm := 1100, topEdgeFinish := .straight,
    topConstruction := none, topFaceThicknessMm := none, legCount := 1,
    legMaterial := .steel, legProfileType := .radial_halfcylinder, legProfileSizeMm := 80,
    legProfileWidthMm := none, legHeightMm := 730, hasFootBase := false,
    legRadialCount := some 4, legRadialSpreadMm := none, totalHeightMm := 750 }

/-- Witness for C4 at a concrete radial configuration. -/
theorem c4_radial_skips_standard_rules_witness :
    radialCfg.legProfileType = LegProfileType.radial_halfcylinder ∧
      ((validateMessages radialCfg).all fun m =>
        decide (m.ruleId ∉
          ["LEG-01", "LEG-02", "LEG-03", "LEG-04", "STAB-02", "STAB-03", "SPAN-02"])) = true :=
  ⟨rfl, List.all_eq_true.mpr fun m hm =>
    decide_eq_true (c4_radial_skips_standard_rules radialCfg rfl m hm)⟩

/-- Claim C10: when a radial-halfcylinder specification has no spread
value, the spread rule is silently skipped (no RADIAL-01 finding anywhere
in the run) and the stability checker falls back to the top width as the
STAB-01 footprint, so the missing spread alone never causes a violation. -/
theorem c10_missing_spread_silent (config : TableConfig)
    (hr : config.legProfileType = LegProfileType.radial_halfcylinder)
    (hs : config.legRadialSpreadMm = none) :
    (∀ m ∈ validateMessages config, m.ruleId ≠ "RADIAL-01") ∧
      (("STAB-01" ∈ (checkStability config).map (fun m => m.ruleId)) ↔
        config.topWidthMm / config.totalHeightMm < minStabilityFrac) := by
  constructor
  · intro m hm
    unfold validateMessages at hm
    simp only [List.mem_append] at hm
    rcases hm with ((((((hm | hm) | hm) | hm) | hm) | hm) | hm)
    · exact (show ∀ x ∈ ["COMP-01", "COMP-02", "COMP-03"], x ≠ "RADIAL-01" by decide)
        m.ruleId (ruleIds_compositeTop config m hm)
    · exact (show ∀ x ∈ ["MAT-01", "MAT-02"], x ≠ "RADIAL-01" by decide)
        m.ruleId (ruleIds_materialThickness config m hm)
    · rw [ruleIds_span_radial config hr m hm]; decide
    · rw [ruleIds_stability_radial config hr m hm]; decide
    · unfold checkLegRules at hm
      simp only [hr, hs, if_true, if_pos, List.nil_append] at hm
      simp only [List.mem_append] at hm
      rcases hm with hm | hm
      · split at hm
        · split at hm <;> simp_all
        · simp at hm
      · split at hm <;> simp_all
    · exact (show ∀ x ∈ ["HGT-01", "HGT-03"], x ≠ "RADIAL-01" by decide)
        m.ruleId (ruleIds_height config m hm)
    · exact (show ∀ x ∈ ["EDGE-01", "EDGE-02"], x ≠ "RADIAL-01" by decide)
        m.ruleId (ruleIds_edge config m hm)
  · unfold checkStability stabilityFootprint
    rw [hs]
    by_cases hc : config.topWidthMm / config.totalHeightMm < minStabilityFrac <;>
      simp [hc, hr]

/-- Witness for C10 at a concrete radial configuration with no spread. -/
theorem c10_missing_spread_silent_witness :
    radialCfg.legRadialSpreadMm = none ∧
      ((validateMessages radialCfg).all fun m => decide (m.ruleId ≠ "RADIAL-01")) = true ∧
      (("STAB-01" ∈ (checkStability radialCfg).map (fun m => m.ruleId)) ↔
        radialCfg.topWidthMm / radialCfg.totalHeightMm < minStabilityFrac) :=
  ⟨rfl,
    List.all_eq_true.mpr fun m hm =>
      decide_eq_true ((c10_missing_spread_silent radialCfg rfl rfl).1 m hm),
    (c10_missing_spread_silent radialCfg rfl rfl).2⟩

/-! ## The multi-leg span tier selection (claim C6) -/

instance : IsTotal SpanTier tierGE :=
  ⟨fun a b => le_total b.minThicknessMm a.minThicknessMm⟩

instance : IsTrans SpanTier tierGE :=
  ⟨fun a b c hab hbc => le_trans hbc hab⟩

/-- On a list sorted descending by minimum thickness, `find?` returns a
tier whose minimum thickness is maximal among all satisfied tiers. -/
theorem find_tierDesc_max {q : ℚ} :
    ∀ (l : List SpanTier), l.Sorted tierGE →
      ∀ {t : SpanTier}, (l.find? fun r => decide (r.minThicknessMm ≤ q)) = some t →
        ∀ u ∈ l, u.minThicknessMm ≤ q → u.minThicknessMm ≤ t.minThicknessMm := by
  intro l
  induction l with
  | nil => intro _ t ht; simp at ht
  | cons a tl ih =>
    intro hsort t ht u hu hq
    by_cases ha : a.minThicknessMm ≤ q
    · rw [List.find?_cons_of_pos _ (by simpa using ha)] at ht
      have hat : a = t := by simpa using ht
      rcases List.mem_cons.mp hu with rfl | hu
      · exact le_of_eq (congrArg SpanTier.minThicknessMm hat.symm).symm
      · exact hat ▸ List.rel_of_sorted_cons hsort u hu
    · rw [List.find?_cons_of_neg _ (by simpa using ha)] at ht
      rcases List.mem_cons.mp hu with rfl | hu
      · exact absurd hq ha
      · exact ih hsort.of_cons ht u hu hq

/-- In the span table, a tier is determined by its minimum thickness and
any shared material: no two distinct tiers that share a material have the
same minimum thickness. -/
theorem spanTier_min_unique :
    ∀ t ∈ spanLimits4Leg, ∀ u ∈ spanLimits4Leg,
      t.minThicknessMm = u.minThicknessMm →
      (∃ mat, mat ∈ t.materials ∧ mat ∈ u.materials) → t = u := by
  intro t ht u hu h hmat
  simp only [spanLimits4Leg, List.mem_cons, List.not_mem_nil, or_false] at ht hu
  rcases ht with rfl | rfl | rfl | rfl <;> rcases hu with rfl | rfl | rfl | rfl <;>
    first
      | rfl
      | (exfalso; revert hmat; decide)
      | (exfalso; revert h; norm_num; done)

/-- Claim C6: with 2, 4 or 6 legs and a non-pedestal, non-radial profile,
SPAN-01 is emitted exactly when some table tier lists the top's material,
has its minimum thickness satisfied, is the one with the highest such
minimum, and the top's span (its length) exceeds that tier's maximum span
scaled by the composite multiplier; no matching tier means no violation. -/
theorem c6_span01_tier_selection (config : TableConfig)
    (hlegs : config.legCount = 2 ∨ config.legCount = 4 ∨ config.legCount = 6)
    (hped : config.legProfileType ≠ LegProfileType.pedestal)
    (hrad : config.legProfileType ≠ LegProfileType.radial_halfcylinder) :
    ("SPAN-01" ∈ (checkSpan config).map (fun m => m.ruleId)) ↔
      ∃ t ∈ spanLimits4Leg,
        config.topMaterial ∈ t.materials ∧
        t.minThicknessMm ≤ config.topThicknessMm ∧
        (∀ u ∈ spanLimits4Leg, config.topMaterial ∈ u.materials →
          u.minThicknessMm ≤ config.topThicknessMm →
          u.minThicknessMm ≤ t.minThicknessMm) ∧
        t.maxSpanMm * compositeMultiplier config < config.topLengthMm := by
  have hguard : ¬((config.legCount = 1 ∨ config.legProfileType = LegProfileType.pedestal) ∧
      config.legProfileType ≠ LegProfileType.radial_halfcylinder) := by
    rintro ⟨h1 | h2, -⟩
    · rcases hlegs with h | h | h <;> omega
    · exact hped h2
  have hsorted :
      ((spanLimits4Leg.filter fun r =>
        decide (config.topMaterial ∈ r.materials)).insertionSort tierGE).Sorted tierGE :=
    List.sorted_insertionSort tierGE _
  unfold checkSpan
  rw [if_neg hguard, if_pos hlegs]
  rcases hfind : applicableSpanTier config with _ | r
  · unfold applicableSpanTier at hfind
    constructor
    · intro h; simp at h
    · rintro ⟨t, htmem, htmat, htthick, -, -⟩
      have htin : t ∈ (spanLimits4Leg.filter fun r =>
          decide (config.topMaterial ∈ r.materials)).insertionSort tierGE := by
        rw [List.mem_insertionSort, List.mem_filter]
        exact ⟨htmem, decide_eq_true htmat⟩
      have := List.find?_eq_none.mp hfind t htin
      simp only [decide_eq_true_eq] at this
      exact absurd htthick this
  · unfold applicableSpanTier at hfind
    have hrin : r ∈ (spanLimits4Leg.filter fun x =>
        decide (config.topMaterial ∈ x.materials)).insertionSort tierGE :=
      List.mem_of_find?_eq_some hfind
    have hrfilter := (List.mem_insertionSort tierGE).mp hrin
    have hrtable : r ∈ spanLimits4Leg := (List.mem_filter.mp hrfilter).1
    have hrmat : config.topMaterial ∈ r.materials := by
      have := (List.mem_filter.mp hrfilter).2
      simpa using this
    have hrthick : r.minThicknessMm ≤ config.topThicknessMm := by
      have := List.find?_some hfind
      simpa using this
    have hrmax : ∀ u ∈ spanLimits4Leg, config.topMaterial ∈ u.materials →
        u.minThicknessMm ≤ config.topThicknessMm →
        u.minThicknessMm ≤ r.minThicknessMm := by
      intro u hu humat huth
      refine find_tierDesc_max _ hsorted hfind u ?_ huth
      rw [List.mem_insertionSort, List.mem_filter]
      exact ⟨hu, decide_eq_true humat⟩
    by_cases hcond :
        r.maxSpanMm * compositeMultiplier config < config.topLengthMm
    · simp only [hcond, if_true, if_pos]
      constructor
      · intro _
        exact ⟨r, hrtable, hrmat, hrthick, hrmax, hcond⟩
      · intro _; simp
    · simp only [hcond, if_false, if_neg, not_false_iff]
      constructor
      · intro h; simp at h
      · rintro ⟨t, htmem, htmat, htthick, htmax, htexceed⟩
        exfalso
        have h1 : t.minThicknessMm ≤ r.minThicknessMm := hrmax t htmem htmat htthick
        have h2 : r.minThicknessMm ≤ t.minThicknessMm := htmax r hrtable hrmat hrthick
        have : t = r :=
          spanTier_min_unique t htmem r hrtable (le_antisymm h1 h2)
            ⟨config.topMaterial, htmat, hrmat⟩
        exact hcond (this ▸ htexceed)

/-- Witness for C6: the thin long sintered top selects the 12 mm tier
(maximum span 900 mm) and its 1600 mm length exceeds it. -/
theorem c6_span01_tier_selection_witness :
    spanCfg.legCount = 4 ∧ spanCfg.legProfileType ≠ LegProfileType.pedestal ∧
      spanCfg.legProfileType ≠ LegProfileType.radial_halfcylinder ∧
      ("SPAN-01" ∈ (checkSpan spanCfg).map (fun m => m.ruleId)) :=
  ⟨rfl, by decide, by decide,
    (c6_span01_tier_selection spanCfg (Or.inr (Or.inl rfl)) (by decide) (by decide)).mpr
      ⟨⟨[.sintered_stone], 12, 900⟩, by simp [spanLimits4Leg], by decide,
        by norm_num [spanCfg, diningCfg], fun u hu hmat hle => hle,
        by simp [compositeMultiplier, spanCfg, diningCfg]; norm_num⟩⟩

/-! ## The effective span and the two span branches (claim C7) -/

/-- The computable comparison `effSpanGtQ` agrees with the real-valued
effective span of the source: the diameter for round tops and
`Real.sqrt (length² + width²)` otherwise. -/
theorem effSpanGtQ_iff_real (config : TableConfig) (bound : ℚ) :
    effSpanGtQ config bound = true ↔
      (bound : ℝ) <
        (if config.topShapeType = TopShapeType.round then (config.topLengthMm : ℝ)
         else Real.sqrt ((config.topLengthMm : ℝ) ^ 2 + (config.topWidthMm : ℝ) ^ 2)) := by
  unfold effSpanGtQ sqrtGtQ
  by_cases hshape : config.topShapeType = TopShapeType.round
  · simp only [hshape, if_true, if_pos, decide_eq_true_eq]
    exact_mod_cast Iff.rfl
  · simp only [hshape, if_false, if_neg, not_false_iff]
    by_cases hb : (0 : ℚ) ≤ bound
    · simp only [hb, if_true, if_pos, decide_eq_true_eq]
      have hcast : ((config.topLengthMm : ℝ) ^ 2 + (config.topWidthMm : ℝ) ^ 2) =
          ((config.topLengthMm ^ 2 + config.topWidthMm ^ 2 : ℚ) : ℝ) := by
        push_cast; ring
      rw [hcast, Real.lt_sqrt (by exact_mod_cast hb)]
      exact_mod_cast Iff.rfl
    · simp only [hb, if_false, if_neg, not_false_iff, true_iff]
      have h1 : (bound : ℝ) < 0 := by exact_mod_cast not_le.mp hb
      exact lt_of_lt_of_le h1 (Real.sqrt_nonneg _)

/-- Claim C7 (amended part): in the pedestal branch, the value compared
against the allowed diagonal is the effective span — the diameter for a
round top, the diagonal of length by width otherwise. -/
theorem c7_pedestal_compares_effective_span (config : TableConfig)
    (hped : config.legCount = 1 ∨ config.legProfileType = LegProfileType.pedestal)
    (hrad : config.legProfileType ≠ LegProfileType.radial_halfcylinder) :
    ("SPAN-02" ∈ (checkSpan config).map (fun m => m.ruleId)) ↔
      ((pedestalMaxDiag config.topThicknessMm : ℝ) <
        (if config.topShapeType = TopShapeType.round then (config.topLengthMm : ℝ)
         else Real.sqrt ((config.topLengthMm : ℝ) ^ 2 + (config.topWidthMm : ℝ) ^ 2))) := by
  unfold checkSpan
  rw [if_pos ⟨hped, hrad⟩, ← effSpanGtQ_iff_real]
  by_cases hc : effSpanGtQ config (pedestalMaxDiag config.topThicknessMm) = true <;>
    simp [hc]

/-- An unstable pedestal table: a round 1200 mm top on one 50 mm pedestal
leg at 750 mm total height, scenario (3) of the specification. -/
def pedestalCfg : TableConfig :=
  { topMaterial := .sintered_stone, topThicknessMm := 20, topShapeType := .round,
    topLengthMm := 1200, topWidthMm := 1200, topEdgeFinish := .straight,
    topConstruction := none, topFaceThicknessMm := none, legCount := 1,
    legMaterial := .steel, legProfileType := .pedestal, legProfileSizeMm := 50,
    legProfileWidthMm := none, legHeightMm := 730, hasFootBase := false,
    legRadialCount := none, legRadialSpreadMm := none, totalHeightMm := 750 }

/-- Witness for C7 at a concrete pedestal configuration: the 20 mm tier
allows 1000 mm and the round top's effective span (its 1200 mm diameter)
exceeds it, so SPAN-02 is emitted. -/
theorem c7_pedestal_compares_effective_span_witness :
    pedestalCfg.legCount = 1 ∧
      pedestalCfg.legProfileType ≠ LegProfileType.radial_halfcylinder ∧
      ("SPAN-02" ∈ (checkSpan pedestalCfg).map (fun m => m.ruleId)) :=
  ⟨rfl, by decide,
    (c7_pedestal_compares_effective_span pedestalCfg (Or.inl rfl) (by decide)).mpr
      (by norm_num [pedestalCfg, pedestalMaxDiag, pedestalSpanLimits, List.find?])⟩

/-- Modelled from the claim's words for C7: a span checker in which the
value compared against the allowed limit is the effective span in both
branches, the multi-leg SPAN-01 branch included.  The source instead
compares `span = topLengthMm` in the SPAN-01 branch. -/
def checkSpanClaimC7 (config : TableConfig) : List ValidationMessage :=
  if (config.legCount = 1 ∨ config.legProfileType = LegProfileType.pedestal) ∧
      config.legProfileType ≠ LegProfileType.radial_halfcylinder then
    if effSpanGtQ config (pedestalMaxDiag config.topThicknessMm) then
      [⟨"SPAN-02", "topLengthMm"⟩]
    else []
  else
    if config.legCount = 2 ∨ config.legCount = 4 ∨ config.legCount = 6 then
      match applicableSpanTier config with
      | some rule =>
        if effSpanGtQ config (rule.maxSpanMm * compositeMultiplier config) then
          [⟨"SPAN-01", "topLengthMm"⟩]
        else []
      | none => []
    else []

/-- Counterexample to C7 as stated: on the valid 1800 by 900 dining table
the diagonal (≈ 2012 mm) exceeds the 1800 mm tier limit while the length
does not, so a span checker comparing the effective span in the SPAN-01
branch (the claim's reading) emits a violation where the source emits
none. -/
theorem c7_counterexample : checkSpanClaimC7 diningCfg ≠ checkSpan diningCfg := by
  have h1 : checkSpan diningCfg = [] := by
    norm_num [checkSpan, diningCfg, applicableSpanTier, spanLimits4Leg,
      compositeMultiplier, List.insertionSort, List.orderedInsert, tierGE,
      List.find?, List.filter]
    simp
  have h2 : checkSpanClaimC7 diningCfg = [⟨"SPAN-01", "topLengthMm"⟩] := by
    norm_num [checkSpanClaimC7, diningCfg, applicableSpanTier, spanLimits4Leg,
      compositeMultiplier, effSpanGtQ, sqrtGtQ, List.insertionSort,
      List.orderedInsert, tierGE, List.find?, List.filter]
    simp
    norm_num
  rw [h1, h2]
  simp

/-! ## Ordering of findings (claim C8) -/

/-- The checker family of a rule identifier, numbered in the order in
which `validate` actually invokes the checkers: composite 0, material 1,
span 2, stability 3, leg 4, height 5, edge 6. -/
def codeOrd (id : String) : ℕ :=
  if id ∈ ["COMP-01", "COMP-02", "COMP-03"] then 0
  else if id ∈ ["MAT-01", "MAT-02"] then 1
  else if id ∈ ["SPAN-01", "SPAN-02"] then 2
  else if id ∈ ["STAB-01", "STAB-02", "STAB-03"] then 3
  else if id ∈ ["RADIAL-01", "RADIAL-02", "RADIAL-03",
    "LEG-01", "LEG-02", "LEG-03", "LEG-04", "LEG-05"] then 4
  else if id ∈ ["HGT-01", "HGT-03"] then 5
  else 6

/-- The checker family of a rule identifier, numbered in the order the
claim asserts: material 0, span 1, stability 2, leg 3, height 4, edge 5,
composite 6 (composite last). -/
def claimOrd (id : String) : ℕ :=
  if id ∈ ["MAT-01", "MAT-02"] then 0
  else if id ∈ ["SPAN-01", "SPAN-02"] then 1
  else if id ∈ ["STAB-01", "STAB-02", "STAB-03"] then 2
  else if id ∈ ["RADIAL-01", "RADIAL-02", "RADIAL-03",
    "LEG-01", "LEG-02", "LEG-03", "LEG-04", "LEG-05"] then 3
  else if id ∈ ["HGT-01", "HGT-03"] then 4
  else if id ∈ ["EDGE-01", "EDGE-02"] then 5
  else 6

theorem pairwise_of_const_rank {l : List ValidationMessage}
    {f : ValidationMessage → ℕ} {k : ℕ} (h : ∀ m ∈ l, f m = k) :
    l.Pairwise (fun x y => f x ≤ f y) := by
  induction l with
  | nil => exact List.Pairwise.nil
  | cons a tl ih =>
    refine List.Pairwise.cons ?_ (ih fun m hm => h m (List.mem_cons_of_mem a hm))
    intro y hy
    rw [h a (List.mem_cons_self a tl), h y (List.mem_cons_of_mem a hy)]

/-- Claim C8 (amended): `validate` runs the checkers in the fixed order
composite → material → span → stability → leg → height → edge, so the
findings list and the violations list are ordered by that checker order
(composite findings first, edge findings last). -/
theorem c8_findings_follow_checker_order (config : TableConfig) :
    (validateMessages config).Pairwise
        (fun m₁ m₂ => codeOrd m₁.ruleId ≤ codeOrd m₂.ruleId) ∧
      (validate config).violations.Pairwise
        (fun m₁ m₂ => codeOrd m₁.ruleId ≤ codeOrd m₂.ruleId) := by
  have ha : ∀ m ∈ checkCompositeTop config, codeOrd m.ruleId = 0 := fun m hm =>
    (show ∀ x ∈ ["COMP-01", "COMP-02", "COMP-03"], codeOrd x = 0 by decide)
      m.ruleId (ruleIds_compositeTop config m hm)
  have hb : ∀ m ∈ checkMaterialThickness config, codeOrd m.ruleId = 1 := fun m hm =>
    (show ∀ x ∈ ["MAT-01", "MAT-02"], codeOrd x = 1 by decide)
      m.ruleId (ruleIds_materialThickness config m hm)
  have hc : ∀ m ∈ checkSpan config, codeOrd m.ruleId = 2 := fun m hm =>
    (show ∀ x ∈ ["SPAN-01", "SPAN-02"], codeOrd x = 2 by decide)
      m.ruleId (ruleIds_span config m hm)
  have hd : ∀ m ∈ checkStability config, codeOrd m.ruleId = 3 := fun m hm =>
    (show ∀ x ∈ ["STAB-01", "STAB-02", "STAB-03"], codeOrd x = 3 by decide)
      m.ruleId (ruleIds_stability config m hm)
  have he : ∀ m ∈ checkLegRules config, codeOrd m.ruleId = 4 := fun m hm =>
    (show ∀ x ∈ ["RADIAL-01", "RADIAL-02", "RADIAL-03",
        "LEG-01", "LEG-02", "LEG-03", "LEG-04", "LEG-05"], codeOrd x = 4 by decide)
      m.ruleId (ruleIds_legRules config m hm)
  have hf : ∀ m ∈ checkHeight config, codeOrd m.ruleId = 5 := fun m hm =>
    (show ∀ x ∈ ["HGT-01", "HGT-03"], codeOrd x = 5 by decide)
      m.ruleId (ruleIds_height config m hm)
  have hg : ∀ m ∈ checkEdge config, codeOrd m.ruleId = 6 := fun m hm =>
    (show ∀ x ∈ ["EDGE-01", "EDGE-02"], codeOrd x = 6 by decide)
      m.ruleId (ruleIds_edge config m hm)
  have hmain : (validateMessages config).Pairwise
      (fun m₁ m₂ => codeOrd m₁.ruleId ≤ codeOrd m₂.ruleId) := by
    unfold validateMessages
    rw [List.append_assoc, List.append_assoc, List.append_assoc, List.append_assoc,
      List.append_assoc]
    refine List.pairwise_append.mpr ⟨pairwise_of_const_rank ha, ?_, ?_⟩
    swap
    · intro x hx y hy
      rw [ha x hx]
      exact Nat.zero_le _
    refine List.pairwise_append.mpr ⟨pairwise_of_const_rank hb, ?_, ?_⟩
    swap
    · intro x hx y hy
      rw [hb x hx]
      simp only [List.mem_append] at hy
      rcases hy with hy | hy | hy | hy | hy
      · rw [hc y hy]; omega
      · rw [hd y hy]; omega
      · rw [he y hy]; omega
      · rw [hf y hy]; omega
      · rw [hg y hy]; omega
    refine List.pairwise_append.mpr ⟨pairwise_of_const_rank hc, ?_, ?_⟩
    swap
    · intro x hx y hy
      rw [hc x hx]
      simp only [List.mem_append] at hy
      rcases hy with hy | hy | hy | hy
      · rw [hd y hy]; omega
      · rw [he y hy]; omega
      · rw [hf y hy]; omega
      · rw [hg y hy]; omega
    refine List.pairwise_append.mpr ⟨pairwise_of_const_rank hd, ?_, ?_⟩
    swap
    · intro x hx y hy
      rw [hd x hx]
      simp only [List.mem_append] at hy
      rcases hy with hy | hy | hy
      · rw [he y hy]; omega
      · rw [hf y hy]; omega
      · rw [hg y hy]; omega
    refine List.pairwise_append.mpr ⟨pairwise_of_const_rank he, ?_, ?_⟩
    swap
    · intro x hx y hy
      rw [he x hx]
      simp only [List.mem_append] at hy
      rcases hy with hy | hy
      · rw [hf y hy]; omega
      · rw [hg y hy]; omega
    refine List.pairwise_append.mpr ⟨pairwise_of_const_rank hf, pairwise_of_const_rank hg, ?_⟩
    intro x hx y hy
    rw [hf x hx, hg y hy]
    omega
  refine ⟨hmain, ?_⟩
  have hsub : List.Sublist ((validate config).violations) (validateMessages config) :=
    List.filter_sublist (validateMessages config)
  exact hmain.sublist hsub

/-- A composite top whose face panel is too thin and whose stated total
height disagrees with leg height plus thickness: it violates COMP-01 and
HGT-03 simultaneously. -/
def compositeCfg : TableConfig :=
  { topMaterial := .quartz, topThicknessMm := 30, topShapeType := .rectangle,
    topLengthMm := 1200, topWidthMm := 800, topEdgeFinish := .straight,
    topConstruction := some .composite, topFaceThicknessMm := some 4, legCount := 4,
    legMaterial := .steel, legProfileType := .square, legProfileSizeMm := 60,
    legProfileWidthMm := none, legHeightMm := 700, hasFootBase := false,
    legRadialCount := none, legRadialSpreadMm := none, totalHeightMm := 735 }

/-- Counterexample to C8 as stated: on `compositeCfg` the violations list
is `[COMP-01, HGT-03]` — a composite finding precedes a height finding,
because the engine runs the composite checker first, not last as the
claimed order (material → … → composite) would require. -/
theorem c8_counterexample :
    ¬ ((validate compositeCfg).violations.Pairwise
        (fun m₁ m₂ => claimOrd m₁.ruleId ≤ claimOrd m₂.ruleId)) := by
  have hv : (validate compositeCfg).violations =
      [⟨"COMP-01", "topFaceThicknessMm"⟩, ⟨"HGT-03", "totalHeightMm"⟩] := by
    norm_num [validate, validateMessages, checkCompositeTop, checkMaterialThickness,
      checkSpan, checkStability, checkLegRules, checkHeight, checkEdge,
      materialMinThickness, materialSpanUpgrade, spanLimits4Leg, pedestalSpanLimits,
      sqrtGtQ, effSpanGtQ, pedestalMaxDiag, applicableSpanTier, compositeMultiplier,
      minStabilityFrac, pedestalBaseFrac, isMetalLegMaterial, isWoodLegMaterial,
      footBaseMaxLegHeight, footBaseMinProfileMetal, footBaseMinProfileWood,
      stabilityFootprint, legMinProfiles, woodMinProfileShort, woodMinProfileTall,
      woodTallThreshold, maxSlendernessMetal, maxSlendernessWood, radialSpreadFrac,
      radialMinCount, radialMinDiameterMm, pedestalValidShapes, minTotalHeight,
      maxTotalHeight, heightTolerance, edgeMinThickness, edgeEffectiveThickness,
      compositeFaceMin, minCoreMm, warningRuleIds, compositeCfg,
      List.insertionSort, List.orderedInsert, tierGE, List.find?, List.filter,
      List.flatMap]
    decide
  intro hp
  rw [hv] at hp
  have := List.rel_of_pairwise_cons hp (List.mem_cons_self _ _)
  simp [claimOrd] at this

/-! ## The greedy repair is not re-validated (claim C9) -/

/-- The configuration the suggester produces for `spanCfg`: thickness
raised to 20 mm and the total height recomputed to 1105 mm, which exceeds
the 1100 mm ceiling. -/
def suggestedSpanCfg : TableConfig :=
  { spanCfg with
      topThicknessMm := 20
      totalHeightMm := 1105 }

/-- Claim C9: there is a complete specification that `validate` rejects
whose suggested repair, re-validated, still carries a violation: on
`spanCfg` the fixes raise the top thickness, the recomputed total height
breaks the HGT-01 ceiling, and the suggester never re-checks its output. -/
theorem c9_repair_not_rule_clean :
    (validate spanCfg).isValid = false ∧
      ∃ s, (validate spanCfg).suggestedConfig = some s ∧ (validate s).violations ≠ [] := by
  have hviol : (validate spanCfg).violations =
      [⟨"MAT-02", "topThicknessMm"⟩, ⟨"SPAN-01", "topLengthMm"⟩] := by
    norm_num [validate, validateMessages, checkCompositeTop, checkMaterialThickness,
      checkSpan, checkStability, checkLegRules, checkHeight, checkEdge,
      materialMinThickness, materialSpanUpgrade, spanLimits4Leg, pedestalSpanLimits,
      sqrtGtQ, effSpanGtQ, pedestalMaxDiag, applicableSpanTier, compositeMultiplier,
      minStabilityFrac, pedestalBaseFrac, isMetalLegMaterial, isWoodLegMaterial,
      footBaseMaxLegHeight, footBaseMinProfileMetal, footBaseMinProfileWood,
      stabilityFootprint, legMinProfiles, woodMinProfileShort, woodMinProfileTall,
      woodTallThreshold, maxSlendernessMetal, maxSlendernessWood, radialSpreadFrac,
      radialMinCount, radialMinDiameterMm, pedestalValidShapes, minTotalHeight,
      maxTotalHeight, heightTolerance, edgeMinThickness, edgeEffectiveThickness,
      compositeFaceMin, minCoreMm, warningRuleIds, spanCfg, diningCfg,
      List.insertionSort, List.orderedInsert, tierGE, List.find?, List.filter,
      List.flatMap]
    decide
  have hvalid : (validate spanCfg).isValid = false := by
    rw [show (validate spanCfg).isValid =
      decide ((validate spanCfg).violations.length = 0) from rfl, hviol]
    decide
  have hgen : generateSuggestion spanCfg
      [⟨"MAT-02", "topThicknessMm"⟩, ⟨"SPAN-01", "topLengthMm"⟩] = suggestedSpanCfg := by
    norm_num [generateSuggestion, applyFix, spanBasedMinThickness, minThicknessForSpan,
      suggesterMatMin, spanCfg, diningCfg, suggestedSpanCfg]
  have hsugg : (validate spanCfg).suggestedConfig = some suggestedSpanCfg := by
    rw [show (validate spanCfg).suggestedConfig =
      (if (validate spanCfg).isValid = true then none
       else some (generateSuggestion spanCfg (validate spanCfg).violations)) from rfl,
      hvalid, hviol, hgen]
    simp
  have hreval : (validate suggestedSpanCfg).violations = [⟨"HGT-01", "totalHeightMm"⟩] := by
    norm_num [validate, validateMessages, checkCompositeTop, checkMaterialThickness,
      checkSpan, checkStability, checkLegRules, checkHeight, checkEdge,
      materialMinThickness, materialSpanUpgrade, spanLimits4Leg, pedestalSpanLimits,
      sqrtGtQ, effSpanGtQ, pedestalMaxDiag, applicableSpanTier, compositeMultiplier,
      minStabilityFrac, pedestalBaseFrac, isMetalLegMaterial, isWoodLegMaterial,
      footBaseMaxLegHeight, footBaseMinProfileMetal, footBaseMinProfileWood,
      stabilityFootprint, legMinProfiles, woodMinProfileShort, woodMinProfileTall,
      woodTallThreshold, maxSlendernessMetal, maxSlendernessWood, radialSpreadFrac,
      radialMinCount, radialMinDiameterMm, pedestalValidShapes, minTotalHeight,
      maxTotalHeight, heightTolerance, edgeMinThickness, edgeEffectiveThickness,
      compositeFaceMin, minCoreMm, warningRuleIds, suggestedSpanCfg, spanCfg, diningCfg,
      List.insertionSort, List.orderedInsert, tierGE, List.find?, List.filter,
      List.flatMap]
    decide
  refine ⟨hvalid, suggestedSpanCfg, hsugg, ?_⟩
  rw [hreval]
  simp

/-- Witness for C5 at a concrete composite configuration. -/
theorem c5_comp03_unreachable_witness :
    compositeCfg.topConstruction = some TopConstruction.composite ∧
      compositeCfg.topFaceThicknessMm = some 4 ∧
      ((checkCompositeTop compositeCfg).all fun m => decide (m.ruleId ≠ "COMP-03")) = true :=
  ⟨rfl, rfl, List.all_eq_true.mpr fun m hm =>
    decide_eq_true (c5_comp03_unreachable compositeCfg rfl 4 rfl m hm)⟩
